import Mathlib

/-!
Verification of the Thai ID card reader service (Go) against its
natural-language specification.  The Go sources are shallowly embedded:

* raw card data is modelled as `List Nat` (byte values);
* Go strings produced from raw bytes are modelled as Lean `String`
  (one `Char` per byte for byte-transparent conversions, or one `Char`
  per decoded rune for the Windows-874 decoder);
* fallible operations return `Except String α` carrying the exact error
  message the Go code formats;
* the transmit layer (PC/SC `card.Transmit`) is a parameter: every place
  the Go code transmits a command, the embedding takes the response (or
  transmit error) as an input.
-/

namespace ThaiIdReader

/-! ## Byte-level helpers (Go `bytes` package operations used by the reader) -/

/-- Go `bytes.Trim(data, "\x00")`: strip leading and trailing zero bytes. -/
def bytesTrimNull (s : List Nat) : List Nat :=
  ((s.dropWhile (fun b => b == 0)).reverse.dropWhile (fun b => b == 0)).reverse

/-- Go `bytes.TrimRight(data, " ")`: strip trailing 0x20 bytes. -/
def trimRightSpaces (l : List Nat) : List Nat :=
  (l.reverse.dropWhile (fun b => b == 0x20)).reverse

/-- Whether `pat` is a prefix of `l` (byte-wise). -/
def isPre : List Nat → List Nat → Bool
  | [], _ => true
  | _ :: _, [] => false
  | p :: ps, x :: xs => p == x && isPre ps xs

/-- Go `bytes.Index(l, pat)`: index of the first occurrence of `pat` in `l`,
`none` when absent (Go returns -1). -/
def bytesIndex : List Nat → List Nat → Option Nat
  | [], pat => if pat.isEmpty then some 0 else none
  | x :: xs, pat =>
    if isPre pat (x :: xs) then some 0
    else (bytesIndex xs pat).map (· + 1)

/-! ## Date decoding (`formatDate` in pcsc_reader.go) -/

/-- ASCII decimal digit byte. -/
def isDigitByte (b : Nat) : Bool := 48 ≤ b && b ≤ 57

/-- Numeric value of a string of ASCII digit bytes (most significant first). -/
def digitsVal (l : List Nat) : Nat := l.foldl (fun a b => a * 10 + (b - 48)) 0

/-- Longest digit run at the front of the input. -/
def scanDigitsPre (l : List Nat) : List Nat := l.takeWhile isDigitByte

/-- Continuation byte of a UTF-8 sequence (`10xxxxxx`). -/
def isContByte (b : Nat) : Bool := 0x80 ≤ b && b ≤ 0xBF

/-- Allowed second byte of a 3-byte UTF-8 sequence headed by `b0`
(Go `utf8.acceptRanges`: `E0` needs `A0..BF`, `ED` needs `80..9F`). -/
def cont3Ok (b0 b1 : Nat) : Bool :=
  if b0 == 0xE0 then 0xA0 ≤ b1 && b1 ≤ 0xBF
  else if b0 == 0xED then 0x80 ≤ b1 && b1 ≤ 0x9F
  else isContByte b1

/-- Allowed second byte of a 4-byte UTF-8 sequence headed by `b0`
(`F0` needs `90..BF`, `F4` needs `80..8F`). -/
def cont4Ok (b0 b1 : Nat) : Bool :=
  if b0 == 0xF0 then 0x90 ≤ b1 && b1 ≤ 0xBF
  else if b0 == 0xF4 then 0x80 ≤ b1 && b1 ≤ 0x8F
  else isContByte b1

/-- Go `utf8.DecodeRune` on a byte list: the first rune and the number of
bytes it occupies; any invalid or truncated encoding yields
`(U+FFFD, 1)`, exactly as the rune reader of package `fmt` consumes it. -/
def utf8DecodeRune : List Nat → Nat × Nat
  | [] => (0xFFFD, 0)
  | b0 :: rest =>
    if b0 < 0x80 then (b0, 1)
    else if 0xC2 ≤ b0 && b0 ≤ 0xDF then
      match rest with
      | b1 :: _ =>
        if isContByte b1 then ((b0 - 0xC0) * 0x40 + (b1 - 0x80), 2) else (0xFFFD, 1)
      | [] => (0xFFFD, 1)
    else if 0xE0 ≤ b0 && b0 ≤ 0xEF then
      match rest with
      | b1 :: b2 :: _ =>
        if cont3Ok b0 b1 && isContByte b2 then
          ((b0 - 0xE0) * 0x1000 + (b1 - 0x80) * 0x40 + (b2 - 0x80), 3)
        else (0xFFFD, 1)
      | _ => (0xFFFD, 1)
    else if 0xF0 ≤ b0 && b0 ≤ 0xF4 then
      match rest with
      | b1 :: b2 :: b3 :: _ =>
        if cont4Ok b0 b1 && isContByte b2 && isContByte b3 then
          ((b0 - 0xF0) * 0x40000 + (b1 - 0x80) * 0x1000 +
            (b2 - 0x80) * 0x40 + (b3 - 0x80), 4)
        else (0xFFFD, 1)
      | _ => (0xFFFD, 1)
    else (0xFFFD, 1)

/-- The space-rune table of package `fmt` (`fmt.space`), used by its
scanner's `SkipSpace`. -/
def fmtIsSpaceRune (r : Nat) : Bool :=
  (0x09 ≤ r && r ≤ 0x0D) || r == 0x20 || r == 0x85 || r == 0xA0 ||
  r == 0x1680 || (0x2000 ≤ r && r ≤ 0x200A) || r == 0x2028 || r == 0x2029 ||
  r == 0x202F || r == 0x205F || r == 0x3000

/-- `ss.SkipSpace` of package `fmt` in Scanf mode (`nlIsSpace = false`):
consume space runes; a carriage return is consumed on its own; a newline in
the input does not match the format and is a scan error (`none`); stop at
the first non-space rune.  Fuel-based (one byte at least is consumed per
step); `skipSpaceScanf` supplies sufficient fuel. -/
def skipSpaceScanfAux : Nat → List Nat → Option (List Nat)
  | _, [] => some []
  | 0, l => some l
  | fuel + 1, b :: rest =>
    let d := utf8DecodeRune (b :: rest)
    if d.1 == 0x0A then none
    else if d.1 == 0x0D then skipSpaceScanfAux fuel ((b :: rest).drop d.2)
    else if fmtIsSpaceRune d.1 then skipSpaceScanfAux fuel ((b :: rest).drop d.2)
    else some (b :: rest)

/-- `SkipSpace` over a whole byte list. -/
def skipSpaceScanf (s : List Nat) : Option (List Nat) :=
  skipSpaceScanfAux (s.length + 1) s

/-- Go `fmt.Sscanf(s, "%d", &v)` with the scan error discarded (Scanf
mode): skip leading space runes (a newline is a scan error), then an
optional sign directly followed by at least one ASCII digit; on any scan
error — newline, end of input, no digits — the destination keeps its zero
value. -/
def sscanfInt (s : List Nat) : Int :=
  match skipSpaceScanf s with
  | none => 0
  | some s1 =>
    match s1 with
    | [] => 0
    | b :: rest =>
      if b = 45 then
        if (scanDigitsPre rest).isEmpty then 0 else -(digitsVal (scanDigitsPre rest) : Int)
      else if b = 43 then
        if (scanDigitsPre rest).isEmpty then 0 else (digitsVal (scanDigitsPre rest) : Int)
      else
        if (scanDigitsPre (b :: rest)).isEmpty then 0
        else (digitsVal (scanDigitsPre (b :: rest)) : Int)

/-- Decimal digit characters of `n` (most significant first), as ASCII bytes.
Fuel-based so the definition evaluates inside the kernel; `natDigitChars`
supplies sufficient fuel. -/
def natDigitCharsAux : Nat → Nat → List Nat
  | 0, _ => []
  | fuel + 1, n =>
    if n < 10 then [48 + n] else natDigitCharsAux fuel (n / 10) ++ [48 + n % 10]

/-- Decimal digit characters of `n`, as ASCII bytes. -/
def natDigitChars (n : Nat) : List Nat := natDigitCharsAux (n + 1) n

/-- Go `fmt.Sprintf("%04d", i)`: decimal rendering zero-padded to width 4,
with the padding inserted after the sign. -/
def pad4 (i : Int) : List Nat :=
  let sign : List Nat := if i < 0 then [45] else []
  let digits := natDigitChars i.natAbs
  sign ++ List.replicate (4 - (sign.length + digits.length)) 48 ++ digits

/-- `formatDate` from pcsc_reader.go: trim NUL bytes, require at least 8
bytes, split as 4-byte Buddhist-Era year / 2-byte month / 2-byte day, scan
the year with `%d`, subtract 543 and rebuild `"%04d-%s-%s"`. -/
def formatDate (dateStr : List Nat) : List Nat :=
  let ds := bytesTrimNull dateStr
  if ds.length < 8 then []
  else
    let year := ds.take 4
    let month := (ds.drop 4).take 2
    let day := (ds.drop 6).take 2
    let thaiYear := sscanfInt year
    let gregorianYear := thaiYear - 543
    pad4 gregorianYear ++ 45 :: month ++ 45 :: day

/-- ASCII bytes of a Lean string (development convenience for literals). -/
def asciiBytes (s : String) : List Nat := s.data.map Char.toNat

/-! ## Character-level helpers (Go `strings` package operations used by the
address parser).  Go stores strings as UTF-8 byte slices; since every
operation below matches or removes whole runes, the character-level model
coincides with Go on well-formed UTF-8 input. -/

/-- Characters accepted by Go `unicode.IsSpace` (the set `strings.TrimSpace`
removes from both ends). -/
def isSpaceChar (c : Char) : Bool :=
  let n := c.toNat
  n == 32 || n == 9 || n == 10 || n == 11 || n == 12 || n == 13 ||
  n == 0x85 || n == 0xA0 || n == 0x1680 ||
  (0x2000 ≤ n && n ≤ 0x200A) ||
  n == 0x2028 || n == 0x2029 || n == 0x202F || n == 0x205F || n == 0x3000

/-- Go `strings.TrimSpace`. -/
def trimSpaceGo (s : List Char) : List Char :=
  ((s.dropWhile isSpaceChar).reverse.dropWhile isSpaceChar).reverse

/-- Whether `pre` is a prefix of `s` (Go `strings.HasPrefix`). -/
def hasPre : List Char → List Char → Bool
  | [], _ => true
  | _ :: _, [] => false
  | p :: ps, x :: xs => p == x && hasPre ps xs

/-- Go `strings.TrimPrefix(s, pre)`: remove `pre` when it is a prefix,
otherwise return `s` unchanged. -/
def trimPre (s pre : List Char) : List Char :=
  if hasPre pre s then s.drop pre.length else s

/-- Go `strings.Contains(s, sub)`. -/
def containsSub : List Char → List Char → Bool
  | [], sub => sub.isEmpty
  | x :: xs, sub => hasPre sub (x :: xs) || containsSub xs sub

/-- Go `strings.Split(s, "#")` / `bytes.Split` for the single-byte separator
`#`: the list of segments between occurrences of `#` (always non-empty). -/
def splitHash : List Char → List (List Char)
  | [] => [[]]
  | c :: rest =>
    let r := splitHash rest
    if c == '#' then [] :: r else (c :: r.headD []) :: r.tail

/-- Go `bytes.Trim(s, cut)` at character level: strip characters belonging to
`cut` from both ends. -/
def trimCut (s : List Char) (cut : List Char) : List Char :=
  ((s.dropWhile (fun c => cut.contains c)).reverse.dropWhile
    (fun c => cut.contains c)).reverse

/-! ## The address data model and `ParseThaiAddress` (internal/domain) -/

/-- `domain.Address` from the Go source (all fields zero-valued by default,
as for a freshly allocated Go struct). -/
structure Address where
  houseNo : String := ""
  moo : String := ""
  soi : String := ""
  street : String := ""
  subdistrict : String := ""
  district : String := ""
  province : String := ""
  fullAddress : String := ""
deriving Repr, DecidableEq

/-- Thai marker token for a village number (`หมู่ที่`). -/
def mooMark : List Char := "หมู่ที่".data

/-- Thai marker token for an alley (`ซอย`). -/
def soiMark : List Char := "ซอย".data

/-- Thai marker token for a subdistrict, rural form (`ตำบล`). -/
def tambonMark : List Char := "ตำบล".data

/-- Thai marker token for a subdistrict, Bangkok form (`แขวง`). -/
def khwaengMark : List Char := "แขวง".data

/-- Thai marker token for a district, rural form (`อำเภอ`). -/
def amphoeMark : List Char := "อำเภอ".data

/-- Thai marker token for a district, Bangkok form (`เขต`). -/
def khetMark : List Char := "เขต".data

/-- Thai marker token for a province (`จังหวัด`). -/
def changwatMark : List Char := "จังหวัด".data

/-- Body of the interior-segment loop of `ParseThaiAddress`: classify one
`#`-separated segment by its marker token and update the address under
construction (first matching branch wins; an unmarked segment becomes the
street when no street is set yet). -/
def classifyPart (addr : Address) (rawPart : List Char) : Address :=
  let part := trimSpaceGo rawPart
  if part.isEmpty then addr
  else if hasPre mooMark part then
    { addr with moo := String.mk (trimSpaceGo (trimPre part mooMark)) }
  else if hasPre soiMark part then
    { addr with soi := String.mk (trimSpaceGo (trimPre part soiMark)) }
  else if hasPre tambonMark part || hasPre khwaengMark part then
    { addr with subdistrict :=
        String.mk (trimSpaceGo (trimPre (trimPre part tambonMark) khwaengMark)) }
  else if hasPre amphoeMark part || hasPre khetMark part then
    { addr with district :=
        String.mk (trimSpaceGo (trimPre (trimPre part amphoeMark) khetMark)) }
  else if hasPre changwatMark part then
    { addr with province := String.mk (trimSpaceGo (trimPre part changwatMark)) }
  else if addr.street = "" then { addr with street := String.mk part }
  else addr

/-- `domain.ParseThaiAddress`: `nil` (here `none`) for the empty raw string;
otherwise split on `#`, take the first segment as house number, the last as
province (with optional `จังหวัด` marker), classify interior segments by
marker token, and rebuild `fullAddress` from the structured fields in fixed
order, re-attaching the marker variant detected in the raw input. -/
def ParseThaiAddress (addressStr : String) : Option Address :=
  if addressStr = "" then none
  else
    let parts : List (List Char) := splitHash addressStr.data
    if parts.length = 0 then some { fullAddress := addressStr }
    else
      let a0 : Address := {}
      let a1 :=
        if parts.length > 0 && !(parts.getD 0 []).isEmpty then
          { a0 with houseNo := String.mk (trimSpaceGo (parts.getD 0 [])) }
        else a0
      let a2 :=
        if parts.length > 1 then
          let lastPart := trimSpaceGo (parts.getD (parts.length - 1) [])
          if !lastPart.isEmpty then
            if hasPre changwatMark lastPart then
              { a1 with province := String.mk (trimSpaceGo (trimPre lastPart changwatMark)) }
            else
              { a1 with province := String.mk lastPart }
          else a1
        else a1
      let endIdx := if parts.length - 1 < 1 then parts.length else parts.length - 1
      let a3 := ((parts.take endIdx).drop 1).foldl classifyPart a2
      let fullParts : List String :=
        (if a3.houseNo ≠ "" then [a3.houseNo] else []) ++
        (if a3.moo ≠ "" then ["หมู่ที่ " ++ a3.moo] else []) ++
        (if a3.soi ≠ "" then ["ซอย" ++ a3.soi] else []) ++
        (if a3.street ≠ "" then [a3.street] else []) ++
        (if a3.subdistrict ≠ "" then
          [(if containsSub addressStr.data khwaengMark then "แขวง" else "ตำบล") ++
            a3.subdistrict] else []) ++
        (if a3.district ≠ "" then
          [(if containsSub addressStr.data khetMark then "เขต" else "อำเภอ") ++
            a3.district] else []) ++
        (if a3.province ≠ "" then ["จังหวัด" ++ a3.province] else [])
      some { a3 with fullAddress := String.intercalate " " fullParts }

/-! ## Text decoding (`decodeThaiString`) and base64 (photo encoding) -/

/-- The Windows-874 (TIS-620 superset) single-byte code page used by
`golang.org/x/text/encoding/charmap.Windows874`: ASCII passes through,
`A1..DA` and `DF..FB` map onto the Thai Unicode block, a few C1 positions
map onto punctuation, and undefined bytes decode to U+FFFD.  The decoder is
total, so the Go fallback branch for a decode error is dead. -/
def windows874 (b : Nat) : Nat :=
  if b < 0x80 then b
  else if b = 0x80 then 0x20AC
  else if b = 0x85 then 0x2026
  else if b = 0x91 then 0x2018
  else if b = 0x92 then 0x2019
  else if b = 0x93 then 0x201C
  else if b = 0x94 then 0x201D
  else if b = 0x95 then 0x2022
  else if b = 0x96 then 0x2013
  else if b = 0x97 then 0x2014
  else if b = 0xA0 then 0xA0
  else if 0xA1 ≤ b && b ≤ 0xDA then 0xE01 + (b - 0xA1)
  else if 0xDF ≤ b && b ≤ 0xFB then 0xE3F + (b - 0xDF)
  else 0xFFFD

/-- Strip U+0000 characters from both ends (Go `bytes.Trim(decoded, "\x00")`
applied to the decoded text). -/
def trimNullChars (l : List Char) : List Char :=
  ((l.dropWhile (fun c => c == Char.ofNat 0)).reverse.dropWhile
    (fun c => c == Char.ofNat 0)).reverse

/-- `decodeThaiString` from pcsc_reader.go: decode every byte through the
Windows-874 table, then trim NUL characters from both ends. -/
def decodeThaiString (data : List Nat) : String :=
  String.mk (trimNullChars (data.map (fun b => Char.ofNat (windows874 b))))

/-- Byte-transparent Go `string(bytes)` conversion: one character per byte
(exact for the ASCII data these fields carry). -/
def byteString (bs : List Nat) : String := String.mk (bs.map Char.ofNat)

/-- Character of one 6-bit group in the standard base64 alphabet. -/
def b64Char (n : Nat) : Char :=
  if n < 26 then Char.ofNat (65 + n)
  else if n < 52 then Char.ofNat (97 + (n - 26))
  else if n < 62 then Char.ofNat (48 + (n - 52))
  else if n = 62 then '+' else '/'

/-- Standard base64 encoding (`encoding/base64.StdEncoding`) with `=`
padding, 3 input bytes per 4 output characters. -/
def base64Chars : List Nat → List Char
  | b1 :: b2 :: b3 :: rest =>
    let n := b1 * 65536 + b2 * 256 + b3
    b64Char (n / 262144 % 64) :: b64Char (n / 4096 % 64) ::
      b64Char (n / 64 % 64) :: b64Char (n % 64) :: base64Chars rest
  | [b1, b2] =>
    let n := b1 * 1024 + b2 * 4
    [b64Char (n / 4096 % 64), b64Char (n / 64 % 64), b64Char (n % 64), '=']
  | [b1] =>
    let n := b1 * 16
    [b64Char (n / 64 % 64), b64Char (n % 64), '=', '=']
  | [] => []

/-! ## Protocol engine (selectApplet / readBinary / readPhoto / readCard)

The card transport is a parameter: each `card.Transmit` call in the Go code
corresponds to a response input of type `Except String (List Nat)` (`.error`
models a transmit error). -/

/-- Uppercase hexadecimal digit character (as a byte value). -/
def hexDigit (n : Nat) : Nat := if n < 10 then 48 + n else 55 + n

/-- Go `fmt.Sprintf("%02X", b)` for a byte value. -/
def hexByte (b : Nat) : String :=
  String.mk [Char.ofNat (hexDigit (b / 16 % 16)), Char.ofNat (hexDigit (b % 16))]

/-- Final status-word check of `selectApplet`: `9000` and `9710` succeed,
`6A82` is the applet-missing classification, anything else is a hard
selection failure. -/
def finishSelect (sw1 sw2 : Nat) : Except String Unit :=
  if (sw1 == 0x90 && sw2 == 0x00) || (sw1 == 0x97 && sw2 == 0x10) then .ok ()
  else if sw1 == 0x6A && sw2 == 0x82 then
    .error ("applet not found (SW=" ++ hexByte sw1 ++ hexByte sw2 ++ ") - card may need reset")
  else .error ("select applet failed: SW=" ++ hexByte sw1 ++ hexByte sw2)

/-- `selectApplet` from pcsc_reader.go.  `rsp1` is the response to the fixed
SELECT command, `rsp2` the response to the GET RESPONSE continuation that is
issued only when the first status word is `61xx`. -/
def selectApplet (rsp1 rsp2 : Except String (List Nat)) : Except String Unit :=
  match rsp1 with
  | .error e => .error e
  | .ok rsp =>
    if rsp.length < 2 then .error "invalid response"
    else
      let sw1 := rsp.getD (rsp.length - 2) 0
      let sw2 := rsp.getD (rsp.length - 1) 0
      if sw1 == 0x61 then
        match rsp2 with
        | .error e => .error ("GET RESPONSE failed: " ++ e)
        | .ok r2 =>
          if r2.length < 2 then .error "invalid GET RESPONSE"
          else finishSelect (r2.getD (r2.length - 2) 0) (r2.getD (r2.length - 1) 0)
      else finishSelect sw1 sw2

/-- Final status-word check of `readBinary`: strip the trailing status word
and return the payload on `9000`, otherwise fail with the formatted status. -/
def finishRead (rsp : List Nat) : Except String (List Nat) :=
  let sw1 := rsp.getD (rsp.length - 2) 0
  let sw2 := rsp.getD (rsp.length - 1) 0
  if sw1 == 0x90 && sw2 == 0x00 then .ok (rsp.take (rsp.length - 2))
  else .error ("read binary failed: SW=" ++ hexByte sw1 ++ hexByte sw2)

/-- `readBinary` from pcsc_reader.go: one READ BINARY exchange with the same
`61xx` GET RESPONSE continuation as selection. -/
def readBinary (rsp1 rsp2 : Except String (List Nat)) : Except String (List Nat) :=
  match rsp1 with
  | .error e => .error e
  | .ok rsp =>
    if rsp.length < 2 then .error "invalid response"
    else
      if rsp.getD (rsp.length - 2) 0 == 0x61 then
        match rsp2 with
        | .error e => .error e
        | .ok r2 =>
          if r2.length < 2 then .error "invalid GET RESPONSE"
          else finishRead r2
      else finishRead rsp

/-- Decidable equality for `Except` results (needed to evaluate witnesses). -/
instance exceptDecEq {ε α : Type} [DecidableEq ε] [DecidableEq α] :
    DecidableEq (Except ε α) := fun x y =>
  match x, y with
  | .ok a, .ok b =>
    if h : a = b then isTrue (by rw [h])
    else isFalse (by intro hh; cases hh; exact h rfl)
  | .error a, .error b =>
    if h : a = b then isTrue (by rw [h])
    else isFalse (by intro hh; cases hh; exact h rfl)
  | .ok _, .error _ => isFalse (by intro hh; cases hh)
  | .error _, .ok _ => isFalse (by intro hh; cases hh)

/-- The pair of transmit responses consumed by one `readBinary` call. -/
structure BinRead where
  rsp1 : Except String (List Nat)
  rsp2 : Except String (List Nat)
deriving Repr, DecidableEq

/-- Run `readBinary` on one response pair. -/
def doBin (b : BinRead) : Except String (List Nat) := readBinary b.rsp1 b.rsp2

/-- Concatenation loop of `readPhoto`: append chunk payloads in order and
stop (without error) at the first chunk whose read fails. -/
def photoConcat : List (Except String (List Nat)) → List Nat
  | [] => []
  | .error _ :: _ => []
  | .ok d :: rest => d ++ photoConcat rest

/-- Trailer handling of `readPhoto`: truncate right after the first JPEG
end-of-image marker `FF D9` when present, otherwise strip trailing `0x20`
padding. -/
def trimPhoto (photoData : List Nat) : List Nat :=
  match bytesIndex photoData [0xFF, 0xD9] with
  | some jpegEnd => photoData.take (jpegEnd + 2)
  | none => trimRightSpaces photoData

/-- `readPhoto` from pcsc_reader.go over the 20 fixed photo-chunk reads
(each element supplies the responses of one chunk read). -/
def readPhoto (chunks : List BinRead) : List Nat :=
  trimPhoto (photoConcat (chunks.map doBin))

/-! ## The card record and `readCard` -/

/-- `domain.ThaiIdCard` (the variant with the structured `*Address` field
that `readCard` populates); every field zero-valued by default. -/
structure ThaiIdCard where
  citizenID : String := ""
  prefixNameTH : String := ""
  firstNameTH : String := ""
  middleNameTH : String := ""
  lastNameTH : String := ""
  prefixNameEN : String := ""
  firstNameEN : String := ""
  middleNameEN : String := ""
  lastNameEN : String := ""
  dateOfBirth : String := ""
  gender : String := ""
  address : Option Address := none
  issueDate : String := ""
  expireDate : String := ""
  photoBase64 : String := ""
deriving Repr, DecidableEq

/-- Cutset `" \x00"` used when trimming name segments. -/
def spaceNullCut : List Char := [' ', Char.ofNat 0]

/-- Name-field handling in `readCard`: split the decoded text on `#`; with at
least two segments, trim `" \x00"` from the first two and use them as given
name and family name; otherwise both stay empty. -/
def splitNameParts (chars : List Char) : String × String :=
  let parts := splitHash chars
  if parts.length ≥ 2 then
    (String.mk (trimCut (parts.getD 0 []) spaceNullCut),
     String.mk (trimCut (parts.getD 1 []) spaceNullCut))
  else ("", "")

/-- The citizen-ID field: NUL-trimmed raw bytes on success, empty on a
failed read. -/
def cidField (b : BinRead) : String :=
  match doBin b with
  | .ok d => byteString (bytesTrimNull d)
  | .error _ => ""

/-- The Thai-name fields: Windows-874 decode then `#` split on success,
both empty on a failed read. -/
def thNameFields (b : BinRead) : String × String :=
  match doBin b with
  | .ok d => splitNameParts (decodeThaiString d).data
  | .error _ => ("", "")

/-- The English-name fields: NUL-trimmed raw bytes then `#` split on
success, both empty on a failed read. -/
def enNameFields (b : BinRead) : String × String :=
  match doBin b with
  | .ok d => splitNameParts ((bytesTrimNull d).map Char.ofNat)
  | .error _ => ("", "")

/-- A date field: `formatDate` of the payload on success, empty on a failed
read. -/
def dateField (b : BinRead) : String :=
  match doBin b with
  | .ok d => byteString (formatDate d)
  | .error _ => ""

/-- The gender field: first payload byte `'1'` maps to `"male"`, `'2'` to
`"female"`, anything else (or a failed/empty read) leaves it empty. -/
def genderField (b : BinRead) : String :=
  match doBin b with
  | .ok d =>
    if d.length ≥ 1 then
      if d.headD 0 == 49 then "male"
      else if d.headD 0 == 50 then "female"
      else ""
    else ""
  | .error _ => ""

/-- The address field: decode then `ParseThaiAddress` on success, `none` on
a failed read. -/
def addressField (b : BinRead) : Option Address :=
  match doBin b with
  | .ok d => ParseThaiAddress (decodeThaiString d)
  | .error _ => none

/-- The photo field: base64 of the reassembled photo when non-empty,
otherwise empty (`readPhoto` itself never fails). -/
def photoField (chunks : List BinRead) : String :=
  let photoData := readPhoto chunks
  if photoData.length > 0 then String.mk (base64Chars photoData) else ""

/-- Error message table from internal/domain/message.go. -/
def ErrMsgReaderNotFound : String := "No smart card reader found."

/-- Error message for code 1002. -/
def ErrMsgCardNotDetected : String := "No smart card detected in the reader."

/-- Error message for code 1003. -/
def ErrMsgReadFailed : String := "Failed to read data from the smart card."

/-- Error message for code 1004. -/
def ErrMsgUnsupportedCard : String := "The inserted card is not a supported Thai ID card."

/-- One transmit-response input per `card.Transmit` call that `readCard`
issues: the SELECT exchange, the eight field reads and the photo chunks. -/
structure CardInputs where
  selRsp1 : Except String (List Nat)
  selRsp2 : Except String (List Nat)
  cid : BinRead
  thName : BinRead
  enName : BinRead
  dob : BinRead
  genderRead : BinRead
  issue : BinRead
  expire : BinRead
  addrRead : BinRead
  photo : List BinRead
deriving Repr, DecidableEq

/-- `readCard` from pcsc_reader.go: a failed applet selection aborts the
whole read with the wrapped error `fmt.Errorf("%s: %w", ErrMsgUnsupportedCard,
err)`; otherwise every field is read independently and a failed field read
leaves that field at its zero value. -/
def readCard (inp : CardInputs) : Except String ThaiIdCard :=
  match selectApplet inp.selRsp1 inp.selRsp2 with
  | .error e => .error (ErrMsgUnsupportedCard ++ ": " ++ e)
  | .ok _ =>
    .ok {
      citizenID := cidField inp.cid
      firstNameTH := (thNameFields inp.thName).1
      lastNameTH := (thNameFields inp.thName).2
      firstNameEN := (enNameFields inp.enName).1
      lastNameEN := (enNameFields inp.enName).2
      dateOfBirth := dateField inp.dob
      gender := genderField inp.genderRead
      issueDate := dateField inp.issue
      expireDate := dateField inp.expire
      address := addressField inp.addrRead
      photoBase64 := photoField inp.photo }

/-! ## Reader monitor: retry loop and edge-triggered per-slot events -/

/-- The error-string comparison guarding the reconnect step of the retry
loop in `monitorLoop` (`readErr.Error() == "applet not found" ||
readErr.Error() == "select applet failed: SW=6A82"`). -/
def appletRetryMatch (e : String) : Bool :=
  e == "applet not found" || e == "select applet failed: SW=6A82"

/-- The `for retry := 0; retry < 3; retry++` loop of `monitorLoop`, indexed
by the list of remaining retry indices (`[0, 1, 2]` at the top call).
`outcomes n` is the result of the `readCard` call on attempt `n`;
`reconnectOk n` tells whether the reconnect after attempt `n` succeeds (a
failed reconnect breaks out of the loop).  Returns the number of `readCard`
attempts made and the final result handed to the insert handler. -/
def retryGo (outcomes : Nat → Except String ThaiIdCard) (reconnectOk : Nat → Bool) :
    List Nat → Nat × Except String ThaiIdCard
  | [] => (0, .error "")
  | [retry] =>
    match outcomes retry with
    | .ok c => (retry + 1, .ok c)
    | .error e => (retry + 1, .error e)
  | retry :: next :: rest =>
    match outcomes retry with
    | .ok c => (retry + 1, .ok c)
    | .error e =>
      if appletRetryMatch e && !(reconnectOk retry) then (retry + 1, .error e)
      else retryGo outcomes reconnectOk (next :: rest)

/-- The whole bounded retry of one card insertion (3 total attempts). -/
def readCardRetry (outcomes : Nat → Except String ThaiIdCard)
    (reconnectOk : Nat → Bool) : Nat × Except String ThaiIdCard :=
  retryGo outcomes reconnectOk [0, 1, 2]

/-- The observable emission of one slot on one poll tick. -/
inductive SlotEvent where
  | inserted (res : Except String ThaiIdCard)
  | removed
deriving Repr, DecidableEq

/-- One poll tick of `monitorLoop` for one reader slot: `last` is the stored
presence flag, `connectOk` whether the exclusive connect succeeded this tick
and `res` the result the retry loop would hand to the insert handler.
Events fire only on presence-flag transitions. -/
def slotTick (last : Bool) (connectOk : Bool) (res : Except String ThaiIdCard) :
    Bool × List SlotEvent :=
  if connectOk then
    if !last then (true, [.inserted res]) else (true, [])
  else
    if last then (false, [.removed]) else (false, [])

/-- Run `slotTick` over a sequence of poll ticks, concatenating emissions. -/
def slotRun (last : Bool) : List (Bool × Except String ThaiIdCard) → Bool × List SlotEvent
  | [] => (last, [])
  | (c, r) :: rest =>
    let step := slotTick last c r
    let tail := slotRun step.1 rest
    (tail.1, step.2 ++ tail.2)

/-! ## main.go insert handler: mapping a read result to a broadcast -/

/-- The event broadcast by the `OnCardInserted` handler in main.go. -/
inductive Broadcast where
  | errorEvt (code : Nat) (message : String)
  | cardInserted (card : ThaiIdCard)
deriving Repr, DecidableEq

/-- Error-code classification of main.go: exact string comparison of
`err.Error()` against the message table, with everything unmatched falling
back to 1003 `ReadFailed`. -/
def classifyError (e : String) : Nat × String :=
  if e = ErrMsgReaderNotFound then (1001, ErrMsgReaderNotFound)
  else if e = ErrMsgCardNotDetected then (1002, ErrMsgCardNotDetected)
  else if e = ErrMsgUnsupportedCard then (1004, ErrMsgUnsupportedCard)
  else (1003, ErrMsgReadFailed)

/-- The `OnCardInserted` handler of main.go: an error broadcasts `ERROR`
with the classified code and table message, a successful read broadcasts
`CARD_INSERTED` with the record. -/
def onCardInserted (res : Except String ThaiIdCard) : Broadcast :=
  match res with
  | .error e => .errorEvt (classifyError e).1 (classifyError e).2
  | .ok c => .cardInserted c

/-! ## Broadcast hub (internal/infra/websocket/hub.go) -/

/-- Capacity of a subscriber outbound queue (`make(chan []byte, 256)` in
`RegisterClient`). -/
def sendCapacity : Nat := 256

/-- One hub subscriber: its buffered outbound queue and lifecycle flag. -/
structure HClient where
  queue : List (List Nat) := []
  closed : Bool := false
deriving Repr, DecidableEq

/-- A freshly registered subscriber (`RegisterClient`): empty queue of
capacity `sendCapacity`, open. -/
def registerClient : HClient := {}

/-- Outcome of the broadcast case of `Hub.Run` over a snapshot of the
subscriber list.  In the Go code a full outbound queue makes the loop call
`unregisterClient`, which — after setting the client's `closed` flag under
its own mutex — performs a blocking send on the unbuffered `h.unregister`
channel.  The only receiver of that channel is the select loop of
`Hub.Run` itself, i.e. the goroutine currently stuck inside this broadcast
loop, so the send can never complete.  `deadlocked delivered stuck rest`
records that terminal state: the subscribers in `delivered` already
received the message, `stuck` is the full subscriber (its local `closed`
flag is set, but it is never removed from `h.clients` and its queue channel
is never closed), the subscribers in `rest` are never offered the message,
and the hub processes no further register/unregister/broadcast request of
any kind. -/
inductive BroadcastOutcome where
  | completed (clients : List HClient)
  | deadlocked (delivered : List HClient) (stuck : HClient) (rest : List HClient)
deriving Repr, DecidableEq

/-- The broadcast case of `Hub.Run`: offer the serialized message to each
snapshot subscriber in order.  A subscriber with queue room (non-blocking
send succeeds on the buffered channel) gets the message appended; the first
subscriber whose queue is full sends the loop into `unregisterClient` and
the self-deadlock described on `BroadcastOutcome`. -/
def hubBroadcastRun (msg : List Nat) : List HClient → BroadcastOutcome
  | [] => .completed []
  | c :: cs =>
    if c.queue.length < sendCapacity then
      match hubBroadcastRun msg cs with
      | .completed cs' => .completed ({ c with queue := c.queue ++ [msg] } :: cs')
      | .deadlocked d s r => .deadlocked ({ c with queue := c.queue ++ [msg] } :: d) s r
    else
      .deadlocked [] { c with closed := true } cs

/-! ## Concrete scenario inputs used by witnesses and counterexamples -/

/-- A field read whose transmit fails. -/
def sampleFailBin : BinRead := ⟨.error "transmit failed", .error "transmit failed"⟩

/-- A field read returning `payload` with status `9000`. -/
def sampleOkBin (payload : List Nat) : BinRead :=
  ⟨.ok (payload ++ [0x90, 0x00]), .ok []⟩

/-- A card whose SELECT response carries the hard-failure status `6985`
(neither success, nor `61xx`, nor applet-missing `6A82`). -/
def hardFailInputs : CardInputs :=
  { selRsp1 := .ok [0x69, 0x85], selRsp2 := .ok []
    cid := sampleFailBin, thName := sampleFailBin, enName := sampleFailBin
    dob := sampleFailBin, genderRead := sampleFailBin, issue := sampleFailBin
    expire := sampleFailBin, addrRead := sampleFailBin, photo := [] }

/-- A card whose selection succeeds and whose field reads partly succeed
and partly fail (issue/expire dates and the Thai name fail, the rest
succeed; the address payload decodes to the empty string). -/
def sampleInputs : CardInputs :=
  { selRsp1 := .ok [0x90, 0x00], selRsp2 := .ok []
    cid := sampleOkBin (asciiBytes "1234567890123")
    thName := sampleFailBin
    enName := sampleOkBin (asciiBytes "Mr.#Somchai##Jaidee")
    dob := sampleOkBin (asciiBytes "25300115")
    genderRead := sampleOkBin (asciiBytes "1")
    issue := sampleFailBin, expire := sampleFailBin
    addrRead := sampleOkBin []
    photo := [sampleOkBin [0xFF, 0xD8, 0x01], sampleOkBin [0xFF, 0xD9, 0x20, 0x20]] }

/-- A card whose selection succeeds but every field read fails. -/
def emptyFieldInputs : CardInputs :=
  { selRsp1 := .ok [0x90, 0x00], selRsp2 := .ok []
    cid := sampleFailBin, thName := sampleFailBin, enName := sampleFailBin
    dob := sampleFailBin, genderRead := sampleFailBin, issue := sampleFailBin
    expire := sampleFailBin, addrRead := sampleFailBin, photo := [] }

/-- A wrapped readCard-style error message used in retry witnesses. -/
def wrappedX : String := ErrMsgUnsupportedCard ++ ": " ++ "x"

/-- A subscriber whose outbound queue is full (256 pending messages). -/
def hubFullClient : HClient := { queue := List.replicate 256 [0] }

/-! ## Helper lemmas about the decimal helpers -/

theorem takeWhile_digits_eq_self (l : List Nat) (hd : ∀ b ∈ l, isDigitByte b = true) :
    l.takeWhile isDigitByte = l := by
  induction l with
  | nil => rfl
  | cons x xs ih =>
    rw [List.takeWhile_cons, hd x (by simp)]
    simp [ih (fun b hb => hd b (by simp [hb]))]

theorem sscanfInt_all_digits (s : List Nat) (hne : s ≠ [])
    (hd : ∀ b ∈ s, isDigitByte b = true) : sscanfInt s = (digitsVal s : Int) := by
  cases s with
  | nil => exact absurd rfl hne
  | cons x xs =>
    have hx : isDigitByte x = true := hd x (by simp)
    have hx' : 48 ≤ x ∧ x ≤ 57 := by
      simp only [isDigitByte, Bool.and_eq_true, decide_eq_true_eq] at hx
      omega
    have hdec : utf8DecodeRune (x :: xs) = (x, 1) := by
      simp only [utf8DecodeRune]
      rw [if_pos (by omega)]
    have h10 : (x == 0x0A) = false := by
      simp only [beq_eq_false_iff_ne, ne_eq]
      omega
    have h13 : (x == 0x0D) = false := by
      simp only [beq_eq_false_iff_ne, ne_eq]
      omega
    have hsp : fmtIsSpaceRune x = false := by
      simp only [fmtIsSpaceRune, Bool.or_eq_false_iff, Bool.and_eq_false_iff,
        beq_eq_false_iff_ne, ne_eq, decide_eq_false_iff_not, not_le]
      omega
    have hskip : skipSpaceScanf (x :: xs) = some (x :: xs) := by
      simp [skipSpaceScanf, skipSpaceScanfAux, hdec, h10, h13, hsp]
    simp only [sscanfInt, hskip]
    rw [if_neg (by omega), if_neg (by omega)]
    rw [scanDigitsPre, takeWhile_digits_eq_self _ hd]
    simp

theorem digitsVal_foldl_lt (l : List Nat) :
    ∀ a : Nat, (∀ b ∈ l, isDigitByte b = true) →
      List.foldl (fun a b => a * 10 + (b - 48)) a l < (a + 1) * 10 ^ l.length := by
  induction l with
  | nil => intro a _; simp
  | cons x xs ih =>
    intro a hd
    have hx : isDigitByte x = true := hd x (by simp)
    have h9 : x - 48 ≤ 9 := by
      simp only [isDigitByte, Bool.and_eq_true, decide_eq_true_eq] at hx
      omega
    simp only [List.foldl_cons, List.length_cons]
    calc List.foldl (fun a b => a * 10 + (b - 48)) (a * 10 + (x - 48)) xs
        < (a * 10 + (x - 48) + 1) * 10 ^ xs.length :=
          ih _ (fun b hb => hd b (by simp [hb]))
      _ ≤ ((a + 1) * 10) * 10 ^ xs.length :=
          Nat.mul_le_mul_right _ (by omega)
      _ = (a + 1) * 10 ^ (xs.length + 1) := by rw [pow_succ]; ring

theorem digitsVal_lt (l : List Nat) (hd : ∀ b ∈ l, isDigitByte b = true) :
    digitsVal l < 10 ^ l.length := by
  have h := digitsVal_foldl_lt l 0 hd
  simpa [digitsVal] using h

theorem natDigitCharsAux_length (fuel : Nat) :
    ∀ n k : Nat, n < fuel → 0 < k → n < 10 ^ k →
      (natDigitCharsAux fuel n).length ≤ k := by
  induction fuel with
  | zero => intro n k h; omega
  | succ fuel ih =>
    intro n k hn hk hnk
    simp only [natDigitCharsAux]
    split
    · simpa using hk
    · rename_i hten
      obtain ⟨k', rfl⟩ : ∃ k', k = k' + 1 := ⟨k - 1, by omega⟩
      have hk' : 0 < k' := by
        rcases Nat.eq_zero_or_pos k' with h0 | h0
        · subst h0; simp at hnk; omega
        · exact h0
      have hdiv : n / 10 < n := Nat.div_lt_self (by omega) (by omega)
      have hdivpow : n / 10 < 10 ^ k' := by
        rw [Nat.div_lt_iff_lt_mul (by omega)]
        calc n < 10 ^ (k' + 1) := hnk
          _ = 10 ^ k' * 10 := by rw [pow_succ]
      have := ih (n / 10) k' (by omega) hk' hdivpow
      simp only [List.length_append, List.length_cons, List.length_nil]
      omega

theorem natDigitCharsAux_digits (fuel : Nat) :
    ∀ n b : Nat, b ∈ natDigitCharsAux fuel n → isDigitByte b = true := by
  induction fuel with
  | zero => intro n b h; simp [natDigitCharsAux] at h
  | succ fuel ih =>
    intro n b hb
    simp only [natDigitCharsAux] at hb
    split at hb
    · rename_i hten
      simp only [List.mem_singleton] at hb
      subst hb
      simp only [isDigitByte, Bool.and_eq_true, decide_eq_true_eq]
      omega
    · rw [List.mem_append] at hb
      rcases hb with hb | hb
      · exact ih _ _ hb
      · simp only [List.mem_singleton] at hb
        subst hb
        have : n % 10 < 10 := Nat.mod_lt _ (by omega)
        simp only [isDigitByte, Bool.and_eq_true, decide_eq_true_eq]
        omega

theorem pad4_spec (i : Int) (h0 : 0 ≤ i) (h9 : i ≤ 9999) :
    (pad4 i).length = 4 ∧ ∀ b ∈ pad4 i, isDigitByte b = true := by
  have habs : i.natAbs < 10 ^ 4 := by
    have : i.natAbs ≤ 9999 := by omega
    norm_num
    omega
  have hlen : (natDigitChars i.natAbs).length ≤ 4 :=
    natDigitCharsAux_length _ _ 4 (by omega) (by omega) habs
  constructor
  · simp only [pad4, if_neg (by omega : ¬ i < 0)]
    simp only [List.length_append, List.length_replicate, List.length_nil]
    omega
  · intro b hb
    simp only [pad4, if_neg (by omega : ¬ i < 0), List.nil_append,
      List.mem_append, List.mem_replicate] at hb
    rcases hb with ⟨_, rfl⟩ | hb
    · decide
    · exact natDigitCharsAux_digits _ _ _ hb

/-! ## Claim C5: valid Buddhist-Era dates and too-short inputs -/

/-- Claim C5: for every 8-digit Buddhist-Era date string (after NUL-byte
trimming) whose year is at least 543, `formatDate` returns the string
`(year - 543)-month-day` where the Gregorian year occupies exactly 4 digit
characters and month and day are the trimmed input's byte pairs 5-6 and 7-8;
for every input whose trimmed form is shorter than 8 bytes it returns the
empty string. -/
theorem formatDate_spec (ds es : List Nat)
    (hshort : (bytesTrimNull es).length < 8)
    (h8 : (bytesTrimNull ds).length = 8)
    (hdig : ∀ b ∈ bytesTrimNull ds, isDigitByte b = true)
    (hy : 543 ≤ digitsVal ((bytesTrimNull ds).take 4)) :
    formatDate es = [] ∧
    formatDate ds =
      pad4 ((digitsVal ((bytesTrimNull ds).take 4) : Int) - 543) ++
        45 :: ((bytesTrimNull ds).drop 4).take 2 ++
        45 :: ((bytesTrimNull ds).drop 6).take 2 ∧
    (pad4 ((digitsVal ((bytesTrimNull ds).take 4) : Int) - 543)).length = 4 ∧
    (∀ b ∈ pad4 ((digitsVal ((bytesTrimNull ds).take 4) : Int) - 543),
      isDigitByte b = true) := by
  have htake : ((bytesTrimNull ds).take 4).length = 4 := by
    rw [List.length_take, h8]
    decide
  have htdig : ∀ b ∈ (bytesTrimNull ds).take 4, isDigitByte b = true :=
    fun b hb => hdig b (List.mem_of_mem_take hb)
  have hne : (bytesTrimNull ds).take 4 ≠ [] := by
    intro hcon
    rw [hcon] at htake
    simp at htake
  have hscan : sscanfInt ((bytesTrimNull ds).take 4) =
      (digitsVal ((bytesTrimNull ds).take 4) : Int) :=
    sscanfInt_all_digits _ hne htdig
  have hlt : digitsVal ((bytesTrimNull ds).take 4) < 10 ^ 4 := by
    have := digitsVal_lt _ htdig
    rwa [htake] at this
  have hpad := pad4_spec ((digitsVal ((bytesTrimNull ds).take 4) : Int) - 543)
    (by omega) (by norm_num at hlt ⊢; omega)
  refine ⟨?_, ?_, hpad.1, hpad.2⟩
  · simp only [formatDate]
    rw [if_pos hshort]
  · simp only [formatDate]
    rw [if_neg (by omega), hscan]

/-- Witness for C5 at the concrete date `25300115` (and the too-short
input `2530011`): the output is `1987-01-15`. -/
theorem formatDate_spec_witness :
    formatDate (asciiBytes "2530011") = [] ∧
    formatDate (asciiBytes "25300115") = asciiBytes "1987-01-15" := by
  have h := formatDate_spec (asciiBytes "25300115") (asciiBytes "2530011")
    (by decide) (by decide) (by decide) (by decide)
  refine ⟨h.1, ?_⟩
  rw [h.2.1]
  decide

/-! ## Claim C10: no digit validation beyond length -/

/-- Claim C10: for every input whose NUL-trimmed form has at least 8 bytes,
`formatDate` returns a non-empty result whose month and day are the trimmed
input's byte pairs 5-6 and 7-8 copied verbatim (no range checks) and whose
year is whatever `fmt.Sscanf` with `%d` scans from the first 4 bytes (0 on
a scan error: no digits after optional sign and Unicode-space skipping, a
newline, or end of input) minus 543.  In particular a non-numeric year
field yields `-543` (`formatDate "abcd0101" = "-543-01-01"`), a year field
starting with a newline is a Scanf-mode scan error also yielding `-543`,
and a no-break space (bytes `C2 A0`) before the digits is skipped as a
space rune. -/
theorem formatDate_no_validation (ds : List Nat)
    (h : 8 ≤ (bytesTrimNull ds).length) :
    formatDate ds =
      pad4 (sscanfInt ((bytesTrimNull ds).take 4) - 543) ++
        45 :: ((bytesTrimNull ds).drop 4).take 2 ++
        45 :: ((bytesTrimNull ds).drop 6).take 2 ∧
    formatDate ds ≠ [] ∧
    formatDate (asciiBytes "abcd0101") = asciiBytes "-543-01-01" ∧
    formatDate (0x0A :: asciiBytes "5300115") = asciiBytes "-543-01-15" ∧
    formatDate (0xC2 :: 0xA0 :: asciiBytes "530115") = asciiBytes "-490-01-15" := by
  have hmain : formatDate ds =
      pad4 (sscanfInt ((bytesTrimNull ds).take 4) - 543) ++
        45 :: ((bytesTrimNull ds).drop 4).take 2 ++
        45 :: ((bytesTrimNull ds).drop 6).take 2 := by
    simp only [formatDate]
    rw [if_neg (by omega)]
  refine ⟨hmain, ?_, by decide, by decide, by decide⟩
  rw [hmain]
  simp

/-- Witness for C10 at the concrete inputs `abcd0101` (non-numeric year)
and `\n5300115` (newline scan error). -/
theorem formatDate_no_validation_witness :
    formatDate (asciiBytes "abcd0101") = asciiBytes "-543-01-01" ∧
    formatDate (0x0A :: asciiBytes "5300115") = asciiBytes "-543-01-15" ∧
    formatDate (asciiBytes "abcd0101") ≠ [] :=
  ⟨(formatDate_no_validation (asciiBytes "abcd0101") (by decide)).2.2.1,
   (formatDate_no_validation (asciiBytes "abcd0101") (by decide)).2.2.2.1,
   (formatDate_no_validation (asciiBytes "abcd0101") (by decide)).2.1⟩

/-! ## Helper lemmas about substring search and trailing-space trimming -/

theorem bytesIndex_spec (pat : List Nat) :
    ∀ (l : List Nat) (i : Nat), bytesIndex l pat = some i →
      isPre pat (l.drop i) = true ∧ ∀ j < i, isPre pat (l.drop j) = false := by
  intro l
  induction l with
  | nil =>
    intro i h
    simp only [bytesIndex] at h
    split at h
    · rename_i hemp
      obtain rfl : i = 0 := by simpa using h.symm
      refine ⟨?_, by omega⟩
      rw [List.isEmpty_iff] at hemp
      subst hemp
      rfl
    · exact absurd h (by simp)
  | cons x xs ih =>
    intro i h
    simp only [bytesIndex] at h
    split at h
    · rename_i hpre
      obtain rfl : i = 0 := by simpa using h.symm
      exact ⟨hpre, by omega⟩
    · rename_i hpre
      rw [Option.map_eq_some'] at h
      obtain ⟨i', hi', rfl⟩ := h
      obtain ⟨h1, h2⟩ := ih i' hi'
      refine ⟨by simpa using h1, ?_⟩
      intro j hj
      cases j with
      | zero => simpa using hpre
      | succ j' =>
        simp only [List.drop_succ_cons]
        exact h2 j' (by omega)

theorem isPre_two (a b : Nat) (l : List Nat) (h : isPre [a, b] l = true) :
    ∃ rest, l = a :: b :: rest := by
  match l with
  | [] => simp [isPre] at h
  | [x] => simp [isPre] at h
  | x :: y :: rest =>
    simp only [isPre, Bool.and_eq_true, beq_iff_eq] at h
    exact ⟨rest, by rw [h.1, h.2.1]⟩

theorem dropWhile_head_false {α : Type} (p : α → Bool) :
    ∀ (l : List α) (x : α) (xs : List α), l.dropWhile p = x :: xs → p x = false := by
  intro l
  induction l with
  | nil => intro x xs h; simp at h
  | cons a as ih =>
    intro x xs h
    rw [List.dropWhile_cons] at h
    split at h
    · exact ih x xs h
    · rename_i hpa
      obtain rfl : a = x := (List.cons.injEq ..).mp h |>.1
      simpa using hpa

theorem trimRightSpaces_decomp (l : List Nat) :
    ∃ k, l = trimRightSpaces l ++ List.replicate k 0x20 ∧
      (trimRightSpaces l).getLast? ≠ some 0x20 := by
  refine ⟨(l.reverse.takeWhile (fun b => b == 0x20)).length, ?_, ?_⟩
  · conv_lhs => rw [← l.reverse_reverse, ← List.takeWhile_append_dropWhile
      (p := fun b => b == 0x20) (l := l.reverse)]
    rw [List.reverse_append]
    simp only [trimRightSpaces]
    congr 1
    have hmem : ∀ b ∈ (l.reverse.takeWhile (fun b => b == 0x20)).reverse, b = 0x20 := by
      intro b hb
      rw [List.mem_reverse] at hb
      have := List.mem_takeWhile_imp hb
      simpa using this
    rw [List.eq_replicate_of_mem hmem]
    simp
  · rw [trimRightSpaces, List.getLast?_reverse]
    cases hdw : l.reverse.dropWhile (fun b => b == 0x20) with
    | nil => simp
    | cons x xs =>
      have := dropWhile_head_false _ _ _ _ hdw
      simp only [List.head?_cons, ne_eq, Option.some.injEq]
      intro hx
      subst hx
      simp at this

/-! ## Claim C3: photo reassembly -/

/-- Claim C3: the photo chunks are consumed in order and concatenation stops
(without error) at the first failed chunk; when the marker bytes `FF D9`
occur in the concatenation, the result is the concatenation truncated
immediately after the first `FF D9`; when the marker is absent, exactly the
trailing `0x20` padding bytes are stripped and everything else is kept. -/
theorem readPhoto_spec (pre : List (List Nat)) (e : String)
    (tail : List (Except String (List Nat))) (data : List Nat) :
    photoConcat (pre.map Except.ok ++ Except.error e :: tail) = pre.flatten ∧
    photoConcat (pre.map Except.ok) = pre.flatten ∧
    (∀ chunks : List BinRead,
      readPhoto chunks = trimPhoto (photoConcat (chunks.map doBin))) ∧
    (∀ i, bytesIndex data [0xFF, 0xD9] = some i →
      trimPhoto data = data.take i ++ [0xFF, 0xD9] ∧
      ∀ j < i, isPre [0xFF, 0xD9] (data.drop j) = false) ∧
    (bytesIndex data [0xFF, 0xD9] = none →
      ∃ k, data = trimPhoto data ++ List.replicate k 0x20 ∧
        (trimPhoto data).getLast? ≠ some 0x20) := by
  refine ⟨?_, ?_, fun _ => rfl, ?_, ?_⟩
  · induction pre with
    | nil => rfl
    | cons d rest ih =>
      simp only [List.map_cons, List.cons_append, photoConcat, List.flatten_cons,
        List.append_eq]
      rw [ih]
  · induction pre with
    | nil => rfl
    | cons d rest ih =>
      simp only [List.map_cons, photoConcat, List.flatten_cons]
      rw [ih]
  · intro i hi
    obtain ⟨hpre, hmin⟩ := bytesIndex_spec _ _ _ hi
    refine ⟨?_, hmin⟩
    simp only [trimPhoto, hi]
    obtain ⟨rest, hrest⟩ := isPre_two _ _ _ hpre
    rw [List.take_add, hrest]
    rfl
  · intro hnone
    simp only [trimPhoto, hnone]
    exact trimRightSpaces_decomp data

/-- Witness for C3: three synthetic chunks whose concatenation ends in
`FF D9 20 20` reassemble to a photo ending exactly at `FF D9`; a chunk list
without the marker only loses its trailing spaces. -/
theorem readPhoto_spec_witness :
    photoConcat ([[0xAB], [0x01, 0xFF]].map Except.ok ++
      Except.error "read binary failed: SW=6A82" :: []) = [0xAB, 0x01, 0xFF] ∧
    trimPhoto [0xAB, 0x01, 0xFF, 0xD9, 0x20, 0x20] = [0xAB, 0x01, 0xFF, 0xD9] ∧
    (∃ k, [0x01, 0x02, 0x20, 0x03, 0x20, 0x20] =
      trimPhoto [0x01, 0x02, 0x20, 0x03, 0x20, 0x20] ++ List.replicate k 0x20 ∧
      (trimPhoto [0x01, 0x02, 0x20, 0x03, 0x20, 0x20]).getLast? ≠ some 0x20) := by
  have h1 := readPhoto_spec [[0xAB], [0x01, 0xFF]] "read binary failed: SW=6A82" []
    [0xAB, 0x01, 0xFF, 0xD9, 0x20, 0x20]
  have h2 := readPhoto_spec [] "" [] [0x01, 0x02, 0x20, 0x03, 0x20, 0x20]
  refine ⟨h1.1, ?_, h2.2.2.2.2 (by decide)⟩
  have := (h1.2.2.2.1 2 (by decide)).1
  rw [this]
  decide

/-! ## Claim C4: the address round-trip test vector -/

/-- Claim C4: parsing the raw address
`28/70#ซอยสุขขุมวิท 70 แยก 5-1#แขวงจอมทอง#เขตจอมทอง#จังหวัดกรุงเทพมหานคร`
yields house number `28/70`, soi `สุขขุมวิท 70 แยก 5-1`, subdistrict
`จอมทอง`, district `จอมทอง`, province `กรุงเทพมหานคร`, and a full address
rebuilt in fixed field order with the marker variants `แขวง` and `เขต`
detected in the input. -/
theorem parseThaiAddress_roundtrip :
    ParseThaiAddress
        "28/70#ซอยสุขขุมวิท 70 แยก 5-1#แขวงจอมทอง#เขตจอมทอง#จังหวัดกรุงเทพมหานคร" =
      some { houseNo := "28/70"
             moo := ""
             soi := "สุขขุมวิท 70 แยก 5-1"
             street := ""
             subdistrict := "จอมทอง"
             district := "จอมทอง"
             province := "กรุงเทพมหานคร"
             fullAddress :=
               "28/70 ซอยสุขขุมวิท 70 แยก 5-1 แขวงจอมทอง เขตจอมทอง จังหวัดกรุงเทพมหานคร" } := by
  decide

/-! ## Claim C6: edge-triggered insertion and removal detection -/

theorem slotRun_true_replicate (r : Except String ThaiIdCard) :
    ∀ n : Nat, slotRun true (List.replicate n (true, r)) = (true, []) := by
  intro n
  induction n with
  | zero => rfl
  | succ m ih =>
    simp [List.replicate_succ, slotRun, slotTick, ih]

/-- Claim C6: per slot the monitor is edge-triggered — a session that
connects successfully on `n ≥ 1` consecutive poll ticks starting from an
absent card produces exactly one `inserted` emission (carrying the read
result, which the handler then turns into `CARD_INSERTED` or `ERROR`); one
tick emits `removed` exactly on a True-to-False presence transition; and no
tick ever emits more than one event. -/
theorem monitor_edge_triggered (n : Nat) (hn : 1 ≤ n)
    (r res : Except String ThaiIdCard) (last c : Bool) :
    (slotRun false (List.replicate n (true, r))).2 = [SlotEvent.inserted r] ∧
    ((slotTick last c res).2 = [SlotEvent.removed] ↔ (last = true ∧ c = false)) ∧
    (slotTick last c res).2.length ≤ 1 := by
  refine ⟨?_, ?_, ?_⟩
  · obtain ⟨m, rfl⟩ : ∃ m, n = m + 1 := ⟨n - 1, by omega⟩
    simp [List.replicate_succ, slotRun, slotTick, slotRun_true_replicate]
  · cases last <;> cases c <;> simp [slotTick]
  · cases last <;> cases c <;> simp [slotTick]

/-- Witness for C6: three consecutive "present" polls yield exactly one
insertion event. -/
theorem monitor_edge_triggered_witness :
    (slotRun false (List.replicate 3 (true, Except.ok ({} : ThaiIdCard)))).2 =
      [SlotEvent.inserted (Except.ok ({} : ThaiIdCard))] ∧
    (slotTick true false (Except.ok ({} : ThaiIdCard))).2 = [SlotEvent.removed] := by
  have h := monitor_edge_triggered 3 (by decide) (Except.ok ({} : ThaiIdCard))
    (Except.ok ({} : ThaiIdCard)) true false
  exact ⟨h.1, h.2.1.mpr ⟨rfl, rfl⟩⟩

/-! ## Claim C7: hub fan-out with a bounded queue per subscriber

The claim (and the spec, and the code's own comment "Client's send channel
is full, close it") intend that a full-queue subscriber be forcibly
unregistered without blocking delivery to the others.  The code does not do
that: `unregisterClient`, called from inside the broadcast loop of
`Hub.Run`, blocks forever sending on the unbuffered `h.unregister` channel
whose only receiver is `Hub.Run` itself, so the hub self-deadlocks at the
first full-queue subscriber. -/

set_option maxRecDepth 4000 in
/-- Claim C7 (code bug): broadcasting over a snapshot in which one
subscriber's queue is full deadlocks the hub at that subscriber — it is
never removed from the subscriber map and its queue is never closed (only
its local flag is set), subscribers after it in iteration order receive
nothing, and no later hub request is ever processed.  Only when no queue is
full does every subscriber receive exactly one copy, as the claim
states. -/
theorem hub_fanout_code_bug :
    hubBroadcastRun [7] [registerClient, hubFullClient, registerClient] =
      BroadcastOutcome.deadlocked [{ queue := [[7]] }]
        { hubFullClient with closed := true } [registerClient] ∧
    ({ hubFullClient with closed := true } : HClient).queue = hubFullClient.queue ∧
    registerClient.queue = [] ∧
    hubBroadcastRun [7] [registerClient, registerClient] =
      BroadcastOutcome.completed [{ queue := [[7]] }, { queue := [[7]] }] := by
  decide

/-! ## Claim C8: field-level read failures are non-fatal -/

/-- Claim C8: when application selection succeeds, `readCard` returns a
record (never an error); every scalar field, the address and the photo whose
read failed stays at its zero value while every successfully read field is
populated from its payload; and a record is withheld exactly when selection
failed, with the wrapped unsupported-card error. -/
theorem readCard_field_failures (inp : CardInputs)
    (hsel : selectApplet inp.selRsp1 inp.selRsp2 = Except.ok ()) :
    (∃ c : ThaiIdCard, readCard inp = Except.ok c ∧
      (∀ e, doBin inp.cid = .error e → c.citizenID = "") ∧
      (∀ d, doBin inp.cid = .ok d → c.citizenID = byteString (bytesTrimNull d)) ∧
      (∀ e, doBin inp.thName = .error e → c.firstNameTH = "" ∧ c.lastNameTH = "") ∧
      (∀ d, doBin inp.thName = .ok d →
        c.firstNameTH = (splitNameParts (decodeThaiString d).data).1 ∧
        c.lastNameTH = (splitNameParts (decodeThaiString d).data).2) ∧
      (∀ e, doBin inp.enName = .error e → c.firstNameEN = "" ∧ c.lastNameEN = "") ∧
      (∀ d, doBin inp.enName = .ok d →
        c.firstNameEN = (splitNameParts ((bytesTrimNull d).map Char.ofNat)).1 ∧
        c.lastNameEN = (splitNameParts ((bytesTrimNull d).map Char.ofNat)).2) ∧
      (∀ e, doBin inp.dob = .error e → c.dateOfBirth = "") ∧
      (∀ d, doBin inp.dob = .ok d → c.dateOfBirth = byteString (formatDate d)) ∧
      (∀ e, doBin inp.genderRead = .error e → c.gender = "") ∧
      c.gender = genderField inp.genderRead ∧
      (∀ e, doBin inp.issue = .error e → c.issueDate = "") ∧
      (∀ d, doBin inp.issue = .ok d → c.issueDate = byteString (formatDate d)) ∧
      (∀ e, doBin inp.expire = .error e → c.expireDate = "") ∧
      (∀ d, doBin inp.expire = .ok d → c.expireDate = byteString (formatDate d)) ∧
      (∀ e, doBin inp.addrRead = .error e → c.address = none) ∧
      (∀ d, doBin inp.addrRead = .ok d →
        c.address = ParseThaiAddress (decodeThaiString d)) ∧
      (readPhoto inp.photo = [] → c.photoBase64 = "") ∧
      (readPhoto inp.photo ≠ [] →
        c.photoBase64 = String.mk (base64Chars (readPhoto inp.photo)))) ∧
    (∀ inp' : CardInputs, ∀ e : String,
      selectApplet inp'.selRsp1 inp'.selRsp2 = .error e →
      readCard inp' = .error (ErrMsgUnsupportedCard ++ ": " ++ e)) := by
  constructor
  · refine ⟨{ citizenID := cidField inp.cid
              firstNameTH := (thNameFields inp.thName).1
              lastNameTH := (thNameFields inp.thName).2
              firstNameEN := (enNameFields inp.enName).1
              lastNameEN := (enNameFields inp.enName).2
              dateOfBirth := dateField inp.dob
              gender := genderField inp.genderRead
              issueDate := dateField inp.issue
              expireDate := dateField inp.expire
              address := addressField inp.addrRead
              photoBase64 := photoField inp.photo }, ?_,
      fun e h => by simp [cidField, h],
      fun d h => by simp [cidField, h],
      fun e h => by constructor <;> simp [thNameFields, h],
      fun d h => by constructor <;> simp [thNameFields, h],
      fun e h => by constructor <;> simp [enNameFields, h],
      fun d h => by constructor <;> simp [enNameFields, h],
      fun e h => by simp [dateField, h],
      fun d h => by simp [dateField, h],
      fun e h => by simp [genderField, h],
      rfl,
      fun e h => by simp [dateField, h],
      fun d h => by simp [dateField, h],
      fun e h => by simp [dateField, h],
      fun d h => by simp [dateField, h],
      fun e h => by simp [addressField, h],
      fun d h => by simp [addressField, h],
      fun h => by simp [photoField, h],
      fun h => by simp [photoField, List.length_pos.mpr h]⟩
    unfold readCard
    rw [hsel]
  · intro inp' e h
    unfold readCard
    rw [h]

/-- Witness for C8: the partly failing sample card yields a record whose
failed fields are empty and whose read fields are populated. -/
theorem readCard_field_failures_witness :
    (∃ c : ThaiIdCard, readCard sampleInputs = Except.ok c) ∧
    readCard hardFailInputs =
      Except.error (ErrMsgUnsupportedCard ++ ": " ++ "select applet failed: SW=6985") := by
  have h := readCard_field_failures sampleInputs (by decide)
  obtain ⟨c, hc, _⟩ := h.1
  exact ⟨⟨c, hc⟩, h.2 hardFailInputs "select applet failed: SW=6985" (by decide)⟩

/-! ## Claim C9: empty raw address yields a null address -/

/-- Claim C9: `ParseThaiAddress` returns `none` (Go `nil`) exactly for the
empty raw string, so a record whose address read failed or decoded to the
empty string carries a null address rather than an all-empty address
object. -/
theorem parseThaiAddress_nil_on_empty (inp : CardInputs) (c : ThaiIdCard)
    (hsel : selectApplet inp.selRsp1 inp.selRsp2 = Except.ok ())
    (hc : readCard inp = Except.ok c) :
    ParseThaiAddress "" = none ∧
    (∀ s : String, s ≠ "" → ParseThaiAddress s ≠ none) ∧
    (∀ e, doBin inp.addrRead = .error e → c.address = none) ∧
    (∀ d, doBin inp.addrRead = .ok d → decodeThaiString d = "" →
      c.address = none) := by
  have haddr : c.address = addressField inp.addrRead := by
    unfold readCard at hc
    rw [hsel] at hc
    cases hc
    rfl
  refine ⟨rfl, ?_, ?_, ?_⟩
  · intro s hs
    simp only [ParseThaiAddress]
    rw [if_neg hs]
    split <;> simp
  · intro e h
    rw [haddr]
    simp [addressField, h]
  · intro d h hdec
    rw [haddr]
    simp only [addressField, h, hdec]
    rfl

/-- Witness for C9: a record whose address read failed has a null address,
and the empty raw string parses to `none`. -/
theorem parseThaiAddress_nil_on_empty_witness :
    ParseThaiAddress "" = none ∧ ({} : ThaiIdCard).address = none := by
  have h := parseThaiAddress_nil_on_empty emptyFieldInputs {} (by decide) (by decide)
  exact ⟨h.1, h.2.2.1 "transmit failed" (by decide)⟩

/-! ## Claim C1: the error code broadcast on a hard selection failure

`readCard` wraps a selection failure as `"<unsupported msg>: <inner>"`,
while the handler in main.go tests `err.Error()` for exact equality with
the unsupported-card table message; the wrapped message never matches, so
the broadcast error code is 1003 (`ReadFailed`), not the 1004
(`UnsupportedCard`) the spec assigns.  The 1004 branch of the handler is
dead code. -/

/-- Claim C1 (code bug): for a card whose selection fails hard (status
`6985`), after all retry attempts no record is produced and the handler
broadcasts exactly one ERROR — but its code is 1003 with the read-failed
message, not 1004 as the claim and the spec error table state. -/
theorem unsupported_card_code_bug :
    readCard hardFailInputs =
      Except.error (ErrMsgUnsupportedCard ++ ": " ++ "select applet failed: SW=6985") ∧
    readCardRetry (fun _ => readCard hardFailInputs) (fun _ => true) =
      (3, readCard hardFailInputs) ∧
    onCardInserted
        (readCardRetry (fun _ => readCard hardFailInputs) (fun _ => true)).2 =
      Broadcast.errorEvt 1003 ErrMsgReadFailed ∧
    Broadcast.errorEvt 1003 ErrMsgReadFailed ≠
      Broadcast.errorEvt 1004 ErrMsgUnsupportedCard := by
  decide

/-! ## Claim C2: the retry policy of the monitor loop -/

theorem readCard_error_wrapped (inp : CardInputs) (e : String)
    (h : readCard inp = Except.error e) :
    ∃ inner, e = ErrMsgUnsupportedCard ++ ": " ++ inner := by
  unfold readCard at h
  cases hs : selectApplet inp.selRsp1 inp.selRsp2 with
  | error se =>
    rw [hs] at h
    exact ⟨se, by cases h; rfl⟩
  | ok u =>
    cases u
    rw [hs] at h
    cases h

theorem wrapped_not_retry_match (inner : String) :
    appletRetryMatch (ErrMsgUnsupportedCard ++ ": " ++ inner) = false := by
  have h1 : ErrMsgUnsupportedCard.data.length = 50 := by decide
  have h2 : (": " : String).data.length = 2 := by decide
  have h3 : ("applet not found" : String).data.length = 16 := by decide
  have h4 : ("select applet failed: SW=6A82" : String).data.length = 29 := by decide
  simp only [appletRetryMatch, Bool.or_eq_false_iff, beq_eq_false_iff_ne, ne_eq]
  constructor <;> intro h <;>
    have hlen := congrArg (fun s : String => s.data.length) h
  · simp only [String.data_append, List.length_append, h1, h2, h3] at hlen
    omega
  · simp only [String.data_append, List.length_append, h1, h2, h4] at hlen
    omega

/-- Counterexample to claim C2: a hard selection failure that is not
classified applet-missing is still retried — the loop makes 3 `readCard`
attempts, not exactly one. -/
theorem retry_not_confined_counterexample :
    (readCardRetry (fun _ => readCard hardFailInputs) (fun _ => true)).1 = 3 ∧
    (3 : Nat) ≠ 1 ∧
    appletRetryMatch
      (ErrMsgUnsupportedCard ++ ": " ++ "select applet failed: SW=6985") = false := by
  decide

/-- Claim C2 (amended): the retry loop retries every failed `readCard`
attempt — not only applet-missing ones — up to 3 total attempts, stopping
early on success; and since every `readCard` error is wrapped with the
unsupported-card prefix, the exact-string applet-missing comparison never
matches, so the disconnect/reconnect step never runs and the outcome is
independent of reconnect success. -/
theorem retry_policy_amended (outcomes : Nat → Except String ThaiIdCard)
    (rc rc' : Nat → Bool)
    (hw : ∀ n e, outcomes n = .error e →
      ∃ inner, e = ErrMsgUnsupportedCard ++ ": " ++ inner) :
    readCardRetry outcomes rc = readCardRetry outcomes rc' ∧
    (∀ c, outcomes 0 = .ok c → readCardRetry outcomes rc = (1, .ok c)) ∧
    (∀ e c, outcomes 0 = .error e → outcomes 1 = .ok c →
      readCardRetry outcomes rc = (2, .ok c)) ∧
    (∀ e e', outcomes 0 = .error e → outcomes 1 = .error e' →
      readCardRetry outcomes rc = (3, outcomes 2)) ∧
    (∀ inp e, readCard inp = .error e →
      ∃ inner, e = ErrMsgUnsupportedCard ++ ": " ++ inner) ∧
    (∀ e inner, e = ErrMsgUnsupportedCard ++ ": " ++ inner →
      appletRetryMatch e = false) := by
  have hmatch : ∀ n e, outcomes n = .error e → appletRetryMatch e = false := by
    intro n e h
    obtain ⟨inner, rfl⟩ := hw n e h
    exact wrapped_not_retry_match inner
  have step : ∀ rcx : Nat → Bool, readCardRetry outcomes rcx =
      (match outcomes 0 with
       | .ok c => (1, .ok c)
       | .error _ =>
         match outcomes 1 with
         | .ok c => (2, .ok c)
         | .error _ => (3, outcomes 2)) := by
    intro rcx
    cases h0 : outcomes 0 with
    | ok c0 => simp [readCardRetry, retryGo, h0]
    | error e0 =>
      have hm0 := hmatch 0 e0 h0
      cases h1 : outcomes 1 with
      | ok c1 => simp [readCardRetry, retryGo, h0, h1, hm0]
      | error e1 =>
        have hm1 := hmatch 1 e1 h1
        cases h2 : outcomes 2 with
        | ok c2 => simp [readCardRetry, retryGo, h0, h1, h2, hm0, hm1]
        | error e2 => simp [readCardRetry, retryGo, h0, h1, h2, hm0, hm1]
  refine ⟨by rw [step rc, step rc'], ?_, ?_, ?_,
    readCard_error_wrapped, ?_⟩
  · intro c h0
    rw [step rc, h0]
  · intro e c h0 h1
    rw [step rc, h0, h1]
  · intro e e' h0 h1
    rw [step rc, h0, h1]
  · intro e inner he
    rw [he]
    exact wrapped_not_retry_match inner

/-- Witness for the amended C2: three wrapped failures are all attempted
(3 attempts) whether or not reconnects would succeed. -/
theorem retry_policy_amended_witness :
    readCardRetry (fun _ => Except.error wrappedX) (fun _ => true) =
      (3, Except.error wrappedX) ∧
    readCardRetry (fun _ => Except.error wrappedX) (fun _ => true) =
      readCardRetry (fun _ => Except.error wrappedX) (fun _ => false) := by
  have h := retry_policy_amended (fun _ => Except.error wrappedX)
    (fun _ => true) (fun _ => false)
    (fun n e he => ⟨"x", by cases he; rfl⟩)
  exact ⟨h.2.2.2.1 wrappedX wrappedX rfl rfl, h.1⟩

end ThaiIdReader
